import Mathlib

/-!
Verification of the Bunny CDN image transcoding pipeline (`cdn/image_utils.py`)
and the cache-purge operation (`cdn/bunny.py`).

The embedding models the state observable through the claims: a decoded PIL
image is a pixel buffer abstracted to its dimensions, color mode string, and
EXIF orientation tag; the pipeline stages of `compress_image` (orientation
normalization, palette expansion, conditional resize, format selection,
alpha flattening, encoding) are translated one-for-one from the source.
Python exceptions become an `Except` error type; `Image.open`'s behaviour on
the caller's byte stream is abstracted as a `DecodeOutcome` (either the
decoded image or the codec diagnostic string).
-/

set_option autoImplicit false
set_option linter.unusedVariables false

namespace BunnyCDN

/-- A decoded in-memory image, as exposed by PIL: pixel dimensions, color
mode string (`"RGB"`, `"RGBA"`, `"LA"`, `"P"`, `"L"`, ...) and the EXIF
orientation tag (1 = upright; 5–8 are the transforms that swap the axes). -/
structure Img where
  width : Nat
  height : Nat
  mode : String
  exifOrientation : Nat
deriving Repr, DecidableEq

/-- Python exception classes raised by `compress_image`: `ValueError` for
option validation and `IOError` for decode/compression failures. -/
inductive PyError where
  | valueError (msg : String)
  | ioError (msg : String)
deriving Repr, DecidableEq

/-- What `Image.open(file_obj)` does on the caller's byte stream: either it
decodes to an image, or it raises carrying a codec diagnostic. -/
inductive DecodeOutcome where
  | ok (img : Img)
  | fail (diag : String)
deriving Repr, DecidableEq

/-- The result triple of `compress_image` — `(data, content_type, ext)` —
abstracted to the observable properties of the encoded bytes: the dimensions
and color mode of the buffer handed to `img.save`, the chosen codec `fmt`,
the returned content type and extension, and whether the white-background
alpha compositing branch (`bg.paste(img, mask=...)`) executed. -/
structure Encoded where
  width : Nat
  height : Nat
  mode : String
  fmt : String
  content_type : String
  ext : String
  composited : Bool
deriving Repr, DecidableEq

/-- `SUPPORTED_OUTPUTS = {"WEBP", "JPEG"}` (`image_utils.py` line 18). -/
def SUPPORTED_OUTPUTS : List String := ["WEBP", "JPEG"]

/-- Python's `want.upper()`: ASCII uppercase of the requested format string
(format names are ASCII, where `str.upper` agrees with per-character
uppercasing). -/
def pyUpper (s : String) : String := String.mk (s.data.map Char.toUpper)

/-- `has_alpha = src_mode in ("RGBA", "LA", "P")` (`image_utils.py` line 21). -/
abbrev hasAlphaMode (m : String) : Prop := m = "RGBA" ∨ m = "LA" ∨ m = "P"

/-- `_choose_output_format(src_mode, want)` (`image_utils.py` lines 20–28):
modes `RGBA`/`LA`/`P` count as alpha-bearing; a JPEG request on such a mode
is overridden to WEBP; an unsupported request defaults to WEBP; otherwise the
request is honored. -/
def chooseOutputFormat (src_mode : String) (want : String) : String × String :=
  if pyUpper want = "JPEG" ∧ hasAlphaMode src_mode then ("WEBP", ".webp")
  else if ¬ (pyUpper want ∈ SUPPORTED_OUTPUTS) then ("WEBP", ".webp")
  else if pyUpper want = "JPEG" then ("JPEG", ".jpg")
  else ("WEBP", ".webp")

/-- `ImageOps.exif_transpose(img)` (`image_utils.py` line 57): applies the
EXIF orientation to the pixel data and clears the tag. Orientations 5–8
involve a 90° rotation, so they swap width and height; 1–4 keep the axes. -/
def exifTranspose (img : Img) : Img :=
  if 5 ≤ img.exifOrientation ∧ img.exifOrientation ≤ 8 then
    { width := img.height, height := img.width, mode := img.mode,
      exifOrientation := 1 }
  else
    { img with exifOrientation := 1 }

/-- Palette expansion (`image_utils.py` lines 60–61): `img.convert("RGBA")`
when the mode is `"P"`. -/
def convertPalette (img : Img) : Img :=
  if img.mode = "P" then { img with mode := "RGBA" } else img

/-- The resize stage (`image_utils.py` lines 64–68):
`if max_width and img.width > max_width`, resize to
`(max_width, int(img.height * (max_width / float(img.width))))` with the
LANCZOS filter. `int(...)` truncates toward zero, which on these nonnegative
values is the floor `img.height * max_width / img.width` (the float
computation is modelled by exact rational arithmetic). `max_width` being
falsy (`None` or `0`) skips the stage. -/
def resizeStage (max_width : Option Int) (img : Img) : Img :=
  match max_width with
  | none => img
  | some mw =>
      if mw ≠ 0 ∧ mw < (img.width : Int) then
        { img with width := mw.toNat,
                   height := img.height * mw.toNat / img.width }
      else img

/-- The alpha-flattening stage for JPEG output (`image_utils.py` lines
74–80): an `RGBA`/`LA` buffer is composited over an opaque white
`(255, 255, 255)` background using its last (alpha) channel as the paste
mask, yielding an `RGB` buffer of the same size; any other non-`RGB` buffer
is converted to `RGB` directly. The returned flag records whether the
compositing branch (`bg.paste`) executed. -/
def flattenForJpeg (fmt : String) (img : Img) : Img × Bool :=
  if fmt = "JPEG" ∧ (img.mode = "RGBA" ∨ img.mode = "LA") then
    ({ img with mode := "RGB" }, true)
  else if fmt = "JPEG" ∧ img.mode ≠ "RGB" then
    ({ img with mode := "RGB" }, false)
  else (img, false)

/-- The body of the second `try` block of `compress_image` (`image_utils.py`
lines 56–110), applied to a successfully decoded image: orientation
normalization, palette expansion, conditional resize, format choice, alpha
flattening, and encoding. The content type is `"image/webp"` when the chosen
format is WEBP, else `"image/jpeg"` (line 109). -/
def processDecoded (img0 : Img) (max_width : Option Int)
    (output_format : String) : Encoded :=
  let img1 := exifTranspose img0
  let img2 := convertPalette img1
  let img3 := resizeStage max_width img2
  let fe := chooseOutputFormat img3.mode output_format
  let ic := flattenForJpeg fe.1 img3
  { width := ic.1.width, height := ic.1.height, mode := ic.1.mode,
    fmt := fe.1,
    content_type := if fe.1 = "WEBP" then "image/webp" else "image/jpeg",
    ext := fe.2,
    composited := ic.2 }

/-- The check `max_width is not None and max_width < 1` (`image_utils.py`
line 43). -/
def maxWidthInvalid : Option Int → Bool
  | some mw => mw < 1
  | none => false

/-- The interpolation of `max_width` into the validation message of
`image_utils.py` line 44 (Python renders `None` as `"None"`). -/
def maxWidthRepr : Option Int → String
  | some mw => toString mw
  | none => "None"

/-- `compress_image(file_obj, max_width, quality, output_format,
strip_metadata)` (`image_utils.py` lines 30–114). Parameter validation runs
first (lines 40–44) and raises `ValueError` before the byte stream is ever
opened; then `Image.open` runs inside a `try` whose failure is re-raised as
`IOError("Cannot open image file: " + diagnostic)` (lines 46–54); the
processing pipeline then produces the encoded result. `strip_metadata` only
pops EXIF/ICC entries from the in-memory info dict and has no effect on the
observables modelled here. -/
def compress_image (file_obj : DecodeOutcome) (max_width : Option Int)
    (quality : Int) (output_format : String) (strip_metadata : Bool) :
    Except PyError Encoded :=
  if quality < 1 ∨ 100 < quality then
    .error (.valueError
      ("Quality must be between 1 and 100, got " ++ toString quality))
  else if maxWidthInvalid max_width then
    .error (.valueError
      ("max_width must be positive, got " ++ maxWidthRepr max_width))
  else
    match file_obj with
    | .fail diag => .error (.ioError ("Cannot open image file: " ++ diag))
    | .ok img0 => .ok (processDecoded img0 max_width output_format)

/-- Configuration consulted by `purge_cache` (`bunny.py` lines 118–127):
the pull-zone id and API key from Django settings; an unset value is the
empty string (falsy). -/
structure PurgeSettings where
  pull_zone_id : String
  api_key : String
deriving Repr, DecidableEq

/-- Return value of `purge_cache` (`bunny.py`): the dict
`{"success": [...], "failed": [...]}`. -/
structure PurgeResult where
  success : List String
  failed : List String
deriving Repr, DecidableEq

/-- The per-URL loop of `purge_cache` (`bunny.py` lines 132–146): falsy
(empty) URLs are skipped with `continue`; otherwise one POST is issued per
URL and the URL is appended to `success` when it returns 2xx
(`post_ok url = true`) and to `failed` when the request raises — every
exception class is caught, so the loop itself never raises. -/
def purgeLoop (post_ok : String → Bool) : List String → List String × List String
  | [] => ([], [])
  | u :: rest =>
      if u = "" then purgeLoop post_ok rest
      else if post_ok u then
        (u :: (purgeLoop post_ok rest).1, (purgeLoop post_ok rest).2)
      else ((purgeLoop post_ok rest).1, u :: (purgeLoop post_ok rest).2)

/-- `purge_cache(urls)` (`bunny.py` lines 112–148): an empty list returns
empty results; a missing pull-zone id or API key skips purging and reports
every URL as failed; otherwise each URL is purged individually, collecting
per-URL success/failure. `post_ok` abstracts whether the HTTP POST for a
given URL completes without raising. -/
def purge_cache (settings : PurgeSettings) (post_ok : String → Bool)
    (urls : List String) : PurgeResult :=
  if urls = [] then { success := [], failed := [] }
  else if settings.pull_zone_id = "" then { success := [], failed := urls }
  else if settings.api_key = "" then { success := [], failed := urls }
  else
    { success := (purgeLoop post_ok urls).1,
      failed := (purgeLoop post_ok urls).2 }

/-! ### Structural lemmas about the pipeline stages -/

@[simp] theorem exifTranspose_mode (i : Img) : (exifTranspose i).mode = i.mode := by
  unfold exifTranspose
  split <;> rfl

@[simp] theorem convertPalette_width (i : Img) : (convertPalette i).width = i.width := by
  unfold convertPalette
  split <;> rfl

@[simp] theorem convertPalette_height (i : Img) : (convertPalette i).height = i.height := by
  unfold convertPalette
  split <;> rfl

@[simp] theorem resizeStage_mode (mw : Option Int) (i : Img) :
    (resizeStage mw i).mode = i.mode := by
  cases mw with
  | none => rfl
  | some w =>
      show (if w ≠ 0 ∧ w < (i.width : Int) then
          { i with width := w.toNat, height := i.height * w.toNat / i.width }
        else i).mode = i.mode
      split <;> rfl

@[simp] theorem flattenForJpeg_width (f : String) (i : Img) :
    ((flattenForJpeg f i).1).width = i.width := by
  unfold flattenForJpeg
  split
  · rfl
  · split <;> rfl

@[simp] theorem flattenForJpeg_height (f : String) (i : Img) :
    ((flattenForJpeg f i).1).height = i.height := by
  unfold flattenForJpeg
  split
  · rfl
  · split <;> rfl

/-- The format selector only ever produces the two matching pairs. -/
theorem chooseOutputFormat_cases (m w : String) :
    chooseOutputFormat m w = ("WEBP", ".webp") ∨
    chooseOutputFormat m w = ("JPEG", ".jpg") := by
  unfold chooseOutputFormat
  split
  · exact Or.inl rfl
  · split
    · exact Or.inl rfl
    · split
      · exact Or.inr rfl
      · exact Or.inl rfl

/-- The selector returns JPEG only for non-alpha source modes. -/
theorem chooseOutputFormat_jpeg_no_alpha (m w : String)
    (h : (chooseOutputFormat m w).1 = "JPEG") :
    ¬ hasAlphaMode m := by
  intro halpha
  by_cases hj : pyUpper w = "JPEG"
  · unfold chooseOutputFormat at h
    rw [if_pos ⟨hj, halpha⟩] at h
    exact absurd h (by decide)
  · unfold chooseOutputFormat at h
    rw [if_neg (fun hc => hj hc.1)] at h
    by_cases hin : pyUpper w ∈ SUPPORTED_OUTPUTS
    · rw [if_neg (not_not_intro hin), if_neg hj] at h
      exact absurd h (by decide)
    · rw [if_pos hin] at h
      exact absurd h (by decide)

/-- An alpha-mode source requested (case-insensitively) as JPEG is overridden
to WEBP. -/
theorem chooseOutputFormat_alpha_jpeg (m w : String)
    (halpha : m = "RGBA" ∨ m = "LA" ∨ m = "P")
    (hw : pyUpper w = "JPEG") :
    chooseOutputFormat m w = ("WEBP", ".webp") := by
  unfold chooseOutputFormat
  rw [if_pos ⟨hw, halpha⟩]

/-- Projections of `processDecoded` in terms of the stage functions. -/
theorem processDecoded_ext (img0 : Img) (mw : Option Int) (of : String) :
    (processDecoded img0 mw of).ext =
      (chooseOutputFormat
        (resizeStage mw (convertPalette (exifTranspose img0))).mode of).2 := rfl

theorem processDecoded_fmt (img0 : Img) (mw : Option Int) (of : String) :
    (processDecoded img0 mw of).fmt =
      (chooseOutputFormat
        (resizeStage mw (convertPalette (exifTranspose img0))).mode of).1 := rfl

theorem processDecoded_content_type (img0 : Img) (mw : Option Int) (of : String) :
    (processDecoded img0 mw of).content_type =
      (if (chooseOutputFormat
            (resizeStage mw (convertPalette (exifTranspose img0))).mode of).1
          = "WEBP"
       then "image/webp" else "image/jpeg") := rfl

theorem processDecoded_mode (img0 : Img) (mw : Option Int) (of : String) :
    (processDecoded img0 mw of).mode =
      ((flattenForJpeg
          (chooseOutputFormat
            (resizeStage mw (convertPalette (exifTranspose img0))).mode of).1
          (resizeStage mw (convertPalette (exifTranspose img0)))).1).mode := rfl

theorem processDecoded_composited (img0 : Img) (mw : Option Int) (of : String) :
    (processDecoded img0 mw of).composited =
      (flattenForJpeg
          (chooseOutputFormat
            (resizeStage mw (convertPalette (exifTranspose img0))).mode of).1
          (resizeStage mw (convertPalette (exifTranspose img0)))).2 := rfl

theorem processDecoded_width (img0 : Img) (mw : Option Int) (of : String) :
    (processDecoded img0 mw of).width =
      (resizeStage mw (convertPalette (exifTranspose img0))).width :=
  flattenForJpeg_width _ _

theorem processDecoded_height (img0 : Img) (mw : Option Int) (of : String) :
    (processDecoded img0 mw of).height =
      (resizeStage mw (convertPalette (exifTranspose img0))).height :=
  flattenForJpeg_height _ _

/-- Inversion: a successful `compress_image` call means the options passed
validation, the stream decoded, and the result is the processed image. -/
theorem compress_ok_inv {f : DecodeOutcome} {mw : Option Int} {q : Int}
    {of : String} {st : Bool} {e : Encoded}
    (h : compress_image f mw q of st = .ok e) :
    ∃ img0 : Img, f = .ok img0 ∧ processDecoded img0 mw of = e ∧
      1 ≤ q ∧ q ≤ 100 ∧ maxWidthInvalid mw = false := by
  by_cases hq : q < 1 ∨ 100 < q
  · unfold compress_image at h
    rw [if_pos hq] at h
    exact absurd h (by simp)
  · by_cases hmw : maxWidthInvalid mw = true
    · unfold compress_image at h
      rw [if_neg hq, if_pos hmw] at h
      exact absurd h (by simp)
    · cases f with
      | fail diag =>
          unfold compress_image at h
          rw [if_neg hq, if_neg hmw] at h
          exact absurd h (by simp)
      | ok img0 =>
          unfold compress_image at h
          rw [if_neg hq, if_neg hmw] at h
          refine ⟨img0, rfl, ?_, by omega, by omega, by simpa using hmw⟩
          simpa using h

@[simp] theorem convertPalette_mode (i : Img) :
    (convertPalette i).mode = if i.mode = "P" then "RGBA" else i.mode := by
  unfold convertPalette
  split <;> simp_all

theorem resizeStage_some (w : Int) (i : Img) :
    resizeStage (some w) i =
      if w ≠ 0 ∧ w < (i.width : Int) then
        { i with width := w.toNat, height := i.height * w.toNat / i.width }
      else i := rfl

/-- The color mode reaching the format selector is still alpha-bearing when
the decoded mode was (palette expansion maps `P` to `RGBA`). -/
theorem pipeline_mode_alpha (img : Img) (mw : Option Int)
    (halpha : hasAlphaMode img.mode) :
    hasAlphaMode (resizeStage mw (convertPalette (exifTranspose img))).mode := by
  rw [resizeStage_mode, convertPalette_mode, exifTranspose_mode]
  rcases halpha with h | h | h <;> simp [h] <;> decide

/-! ### The claims -/

/-- **C7**: the format selector is total and deterministic over its whole
input domain: it never rejects an input and always returns one of the two
supported output pairs, any requested format not among the two supported
output formats yields the WEBP default with extension `".webp"`, and calling
it twice with identical inputs returns identical outputs. -/
theorem choose_output_format_total_det (mode want : String) :
    (pyUpper want ∉ SUPPORTED_OUTPUTS →
      chooseOutputFormat mode want = ("WEBP", ".webp")) ∧
    chooseOutputFormat mode want = chooseOutputFormat mode want ∧
    (chooseOutputFormat mode want = ("WEBP", ".webp") ∨
      chooseOutputFormat mode want = ("JPEG", ".jpg")) := by
  refine ⟨fun hnotin => ?_, rfl, chooseOutputFormat_cases mode want⟩
  unfold chooseOutputFormat
  rw [if_neg, if_pos hnotin]
  intro hc
  rw [hc.1] at hnotin
  exact hnotin (by decide)

/-- Witness for C7 at the concrete unsupported request `"png"`. -/
theorem choose_output_format_total_det_witness :
    pyUpper "png" ∉ SUPPORTED_OUTPUTS ∧
    chooseOutputFormat "RGB" "png" = ("WEBP", ".webp") :=
  ⟨by decide, (choose_output_format_total_det "RGB" "png").1 (by decide)⟩

/-- **C4**: every successful `compress_image` call returns one of exactly two
matching extension/content-type pairs: `".webp"` with `"image/webp"`, or
`".jpg"` with `"image/jpeg"`. -/
theorem compress_ext_matches_content_type
    (f : DecodeOutcome) (mw : Option Int) (q : Int) (of : String) (st : Bool)
    (e : Encoded) (h : compress_image f mw q of st = .ok e) :
    (e.ext = ".webp" ∧ e.content_type = "image/webp") ∨
    (e.ext = ".jpg" ∧ e.content_type = "image/jpeg") := by
  obtain ⟨img0, rfl, he, -, -, -⟩ := compress_ok_inv h
  subst he
  rcases chooseOutputFormat_cases
      (resizeStage mw (convertPalette (exifTranspose img0))).mode of with hc | hc
  · left
    rw [processDecoded_ext, processDecoded_content_type, hc]
    exact ⟨rfl, rfl⟩
  · right
    rw [processDecoded_ext, processDecoded_content_type, hc]
    exact ⟨rfl, rfl⟩

/-- Witness for C4 at a concrete successful call. -/
theorem compress_ext_matches_content_type_witness :
    ((Encoded.mk 1 1 "RGB" "WEBP" "image/webp" ".webp" false).ext = ".webp" ∧
      (Encoded.mk 1 1 "RGB" "WEBP" "image/webp" ".webp" false).content_type
        = "image/webp") ∨
    ((Encoded.mk 1 1 "RGB" "WEBP" "image/webp" ".webp" false).ext = ".jpg" ∧
      (Encoded.mk 1 1 "RGB" "WEBP" "image/webp" ".webp" false).content_type
        = "image/jpeg") :=
  compress_ext_matches_content_type (.ok ⟨1, 1, "RGB", 1⟩) none 75 "WEBP" true
    (Encoded.mk 1 1 "RGB" "WEBP" "image/webp" ".webp" false) rfl

/-- **C2**: a source whose color mode indicates possible transparency
(`RGBA`, `LA`, or palette `P`) requested as JPEG is overridden to WEBP: the
transcode succeeds with content type `"image/webp"` and never
`"image/jpeg"`. -/
theorem alpha_source_jpeg_request_gives_webp
    (img : Img) (mw : Option Int) (q : Int) (of : String) (st : Bool)
    (halpha : hasAlphaMode img.mode) (hof : pyUpper of = "JPEG")
    (hq1 : 1 ≤ q) (hq2 : q ≤ 100) (hmw : maxWidthInvalid mw = false) :
    ∃ e : Encoded, compress_image (.ok img) mw q of st = .ok e ∧
      e.content_type = "image/webp" ∧ e.content_type ≠ "image/jpeg" := by
  refine ⟨processDecoded img mw of, ?_, ?_, ?_⟩
  · unfold compress_image
    rw [if_neg (by omega), if_neg (by simp [hmw])]
  · rw [processDecoded_content_type,
      chooseOutputFormat_alpha_jpeg _ _ (pipeline_mode_alpha img mw halpha) hof]
    decide
  · rw [processDecoded_content_type,
      chooseOutputFormat_alpha_jpeg _ _ (pipeline_mode_alpha img mw halpha) hof]
    decide

/-- Witness for C2: the spec's end-to-end scenario A, a 2000×1000 RGBA source
requested as JPEG with maxWidth 800. -/
theorem alpha_source_jpeg_request_gives_webp_witness :
    ∃ e : Encoded,
      compress_image (.ok ⟨2000, 1000, "RGBA", 1⟩) (some 800) 75 "JPEG" true
        = .ok e ∧
      e.content_type = "image/webp" ∧ e.content_type ≠ "image/jpeg" :=
  alpha_source_jpeg_request_gives_webp ⟨2000, 1000, "RGBA", 1⟩ (some 800) 75
    "JPEG" true (by decide) (by decide) (by decide) (by decide) (by decide)

/-- **C3**: a quality outside `[1, 100]`, or a present `max_width` below 1
(with quality otherwise valid), makes `compress_image` fail with the
validation `ValueError` before any decoding work: the result is the same
validation error for every byte stream, decodable or not, so the source
bytes are never opened. -/
theorem invalid_options_rejected_before_decode
    (f g : DecodeOutcome) (mw : Option Int) (q : Int) (of : String) (st : Bool)
    (h : (q < 1 ∨ 100 < q) ∨ (1 ≤ q ∧ q ≤ 100 ∧ maxWidthInvalid mw = true)) :
    (∃ msg, compress_image f mw q of st = .error (.valueError msg)) ∧
    compress_image f mw q of st = compress_image g mw q of st := by
  rcases h with hq | ⟨h1, h2, hmw⟩
  · refine ⟨⟨"Quality must be between 1 and 100, got " ++ toString q, ?_⟩, ?_⟩
    · unfold compress_image
      rw [if_pos hq]
    · unfold compress_image
      rw [if_pos hq, if_pos hq]
  · refine ⟨⟨"max_width must be positive, got " ++ maxWidthRepr mw, ?_⟩, ?_⟩
    · unfold compress_image
      rw [if_neg (by omega), if_pos hmw]
    · unfold compress_image
      rw [if_neg (by omega), if_pos hmw, if_neg (by omega), if_pos hmw]

/-- Witness for C3: quality 0 is rejected identically on a decodable and on
an undecodable stream. -/
theorem invalid_options_rejected_before_decode_witness :
    (∃ msg, compress_image (.ok ⟨1, 1, "RGB", 1⟩) none 0 "WEBP" true
      = .error (.valueError msg)) ∧
    compress_image (.ok ⟨1, 1, "RGB", 1⟩) none 0 "WEBP" true
      = compress_image (.fail "junk") none 0 "WEBP" true :=
  invalid_options_rejected_before_decode (.ok ⟨1, 1, "RGB", 1⟩) (.fail "junk")
    none 0 "WEBP" true (Or.inl (by decide))

/-- **C8**: an undecodable byte stream (with otherwise valid options) makes
`compress_image` fail with the decode `IOError` carrying the underlying codec
diagnostic, and no partial `Encoded` result is ever returned. -/
theorem undecodable_stream_decode_error
    (diag : String) (mw : Option Int) (q : Int) (of : String) (st : Bool)
    (hq1 : 1 ≤ q) (hq2 : q ≤ 100) (hmw : maxWidthInvalid mw = false) :
    compress_image (.fail diag) mw q of st =
      .error (.ioError ("Cannot open image file: " ++ diag)) ∧
    ∀ e : Encoded, compress_image (.fail diag) mw q of st ≠ .ok e := by
  have hmain : compress_image (.fail diag) mw q of st =
      .error (.ioError ("Cannot open image file: " ++ diag)) := by
    unfold compress_image
    rw [if_neg (by omega), if_neg (by simp [hmw])]
  refine ⟨hmain, fun e he => ?_⟩
  rw [hmain] at he
  exact absurd he (by simp)

/-- Witness for C8 at a concrete truncated stream. -/
theorem undecodable_stream_decode_error_witness :
    compress_image (.fail "truncated file") none 75 "WEBP" true =
      .error (.ioError ("Cannot open image file: " ++ "truncated file")) ∧
    ∀ e : Encoded,
      compress_image (.fail "truncated file") none 75 "WEBP" true ≠ .ok e :=
  undecodable_stream_decode_error "truncated file" none 75 "WEBP" true
    (by decide) (by decide) (by decide)

/-- A JPEG-bound buffer always leaves the flattening stage in mode `RGB`. -/
theorem flattenForJpeg_jpeg_mode (i : Img) :
    ((flattenForJpeg "JPEG" i).1).mode = "RGB" := by
  unfold flattenForJpeg
  by_cases h1 : ("JPEG" : String) = "JPEG" ∧ (i.mode = "RGBA" ∨ i.mode = "LA")
  · rw [if_pos h1]
  · rw [if_neg h1]
    by_cases h2 : ("JPEG" : String) = "JPEG" ∧ i.mode ≠ "RGB"
    · rw [if_pos h2]
    · rw [if_neg h2]
      by_contra hne
      exact h2 ⟨rfl, hne⟩

/-- The compositing flag stays `false` whenever the flattening stage is not
invoked on a JPEG-bound alpha buffer. -/
theorem flattenForJpeg_composited (f : String) (i : Img)
    (hno : f = "JPEG" → ¬(i.mode = "RGBA" ∨ i.mode = "LA")) :
    (flattenForJpeg f i).2 = false := by
  unfold flattenForJpeg
  rw [if_neg (fun hc => hno hc.1 hc.2)]
  split <;> rfl

/-- **C5**: when the selected output format is JPEG the buffer passed to the
encoder carries no alpha channel (its mode is plain `RGB`); an alpha-bearing
(`RGBA`/`LA`) buffer bound for JPEG is flattened by the compositing branch
(pasting over the opaque white background with the alpha channel as mask,
modelled as the mode change to `RGB` with the composited flag), and any other
non-`RGB` buffer is converted to `RGB` directly. -/
theorem jpeg_encoder_buffer_no_alpha
    (f : DecodeOutcome) (mw : Option Int) (q : Int) (of : String) (st : Bool)
    (e : Encoded) (h : compress_image f mw q of st = .ok e) :
    (e.fmt = "JPEG" → e.mode = "RGB") ∧
    (∀ i : Img, i.mode = "RGBA" ∨ i.mode = "LA" →
      flattenForJpeg "JPEG" i = ({ i with mode := "RGB" }, true)) ∧
    (∀ i : Img, ¬(i.mode = "RGBA" ∨ i.mode = "LA") → i.mode ≠ "RGB" →
      flattenForJpeg "JPEG" i = ({ i with mode := "RGB" }, false)) := by
  refine ⟨?_, ?_, ?_⟩
  · intro hfmt
    obtain ⟨img0, rfl, he, -, -, -⟩ := compress_ok_inv h
    subst he
    rw [processDecoded_fmt] at hfmt
    rw [processDecoded_mode, hfmt, flattenForJpeg_jpeg_mode]
  · intro i hi
    unfold flattenForJpeg
    rw [if_pos ⟨rfl, hi⟩]
  · intro i hi hrgb
    unfold flattenForJpeg
    rw [if_neg (fun hc => hi hc.2), if_pos ⟨rfl, hrgb⟩]

/-- Witness for C5 at a concrete grayscale source encoded as JPEG. -/
theorem jpeg_encoder_buffer_no_alpha_witness :
    (((Encoded.mk 1 1 "RGB" "JPEG" "image/jpeg" ".jpg" false).fmt = "JPEG" →
      (Encoded.mk 1 1 "RGB" "JPEG" "image/jpeg" ".jpg" false).mode = "RGB")) ∧
    (∀ i : Img, i.mode = "RGBA" ∨ i.mode = "LA" →
      flattenForJpeg "JPEG" i = ({ i with mode := "RGB" }, true)) ∧
    (∀ i : Img, ¬(i.mode = "RGBA" ∨ i.mode = "LA") → i.mode ≠ "RGB" →
      flattenForJpeg "JPEG" i = ({ i with mode := "RGB" }, false)) :=
  jpeg_encoder_buffer_no_alpha (.ok ⟨1, 1, "L", 1⟩) none 75 "JPEG" true
    (Encoded.mk 1 1 "RGB" "JPEG" "image/jpeg" ".jpg" false) rfl

/-- **C10**: the white-background compositing branch is unreachable: on every
successful call the composited flag is `false`, because the format selector
returns JPEG only when the buffer mode it inspected carries no alpha, and no
stage between the selector and the flattening step changes the mode. -/
theorem composite_branch_never_executes
    (img : Img) (mw : Option Int) (q : Int) (of : String) (st : Bool)
    (e : Encoded) (h : compress_image (.ok img) mw q of st = .ok e) :
    e.composited = false ∧
    (e.fmt = "JPEG" →
      ¬ hasAlphaMode (resizeStage mw (convertPalette (exifTranspose img))).mode) := by
  obtain ⟨img0, hf, he, -, -, -⟩ := compress_ok_inv h
  injection hf with hf
  subst hf
  subst he
  constructor
  · rw [processDecoded_composited]
    apply flattenForJpeg_composited
    intro hj hal
    exact chooseOutputFormat_jpeg_no_alpha _ of hj
      (hal.elim (fun x => Or.inl x) (fun x => Or.inr (Or.inl x)))
  · intro hfmt
    rw [processDecoded_fmt] at hfmt
    exact chooseOutputFormat_jpeg_no_alpha _ of hfmt

/-- Witness for C10 at a concrete RGBA source requested as JPEG. -/
theorem composite_branch_never_executes_witness :
    (Encoded.mk 10 10 "RGBA" "WEBP" "image/webp" ".webp" false).composited
      = false ∧
    ((Encoded.mk 10 10 "RGBA" "WEBP" "image/webp" ".webp" false).fmt = "JPEG" →
      ¬ hasAlphaMode
        (resizeStage none
          (convertPalette (exifTranspose ⟨10, 10, "RGBA", 1⟩))).mode) :=
  composite_branch_never_executes ⟨10, 10, "RGBA", 1⟩ none 75 "JPEG" true
    (Encoded.mk 10 10 "RGBA" "WEBP" "image/webp" ".webp" false) rfl

/-- Scaling a dimension by a factor at most one (in exact integer
arithmetic) never increases it. -/
theorem nat_mul_div_le (H n W : Nat) (hn : n ≤ W) : H * n / W ≤ H := by
  rcases Nat.eq_zero_or_pos W with h0 | hpos
  · subst h0
    simp
  · calc H * n / W ≤ H * W / W :=
          Nat.div_le_div_right (Nat.mul_le_mul (Nat.le_refl H) hn)
    _ = H := Nat.mul_div_cancel H hpos

/-- **C6**: with `max_width` unset, or when the orientation-normalized image
width is already at most `max_width`, `compress_image` leaves both dimensions
exactly unchanged; and on every successful call the resizer never increases
either dimension (never upscales). Dimensions are measured after orientation
normalization, since the resizer runs after `exif_transpose` (spec §4.3). -/
theorem no_resize_when_small_and_never_upscales
    (img : Img) (mw : Option Int) (q : Int) (of : String) (st : Bool)
    (e : Encoded) (h : compress_image (.ok img) mw q of st = .ok e) :
    ((mw = none ∨
        ∃ w : Int, mw = some w ∧ ((exifTranspose img).width : Int) ≤ w) →
      e.width = (exifTranspose img).width ∧
      e.height = (exifTranspose img).height) ∧
    e.width ≤ (exifTranspose img).width ∧
    e.height ≤ (exifTranspose img).height := by
  obtain ⟨img0, hf, he, -, -, -⟩ := compress_ok_inv h
  injection hf with hf
  subst hf
  subst he
  rw [processDecoded_width, processDecoded_height]
  constructor
  · intro hsmall
    rcases hsmall with rfl | ⟨w, rfl, hwle⟩
    · constructor <;> simp [resizeStage]
    · rw [resizeStage_some, if_neg]
      · constructor <;> simp
      · rintro ⟨-, hlt⟩
        rw [convertPalette_width] at hlt
        omega
  · cases mw with
    | none => constructor <;> simp [resizeStage]
    | some w =>
        rw [resizeStage_some]
        split
        next hc =>
          have hlt : w < ((exifTranspose img).width : Int) := by
            have h2 := hc.2
            rwa [convertPalette_width] at h2
          constructor
          · show w.toNat ≤ (exifTranspose img).width
            omega
          · show (convertPalette (exifTranspose img)).height * w.toNat /
                (convertPalette (exifTranspose img)).width ≤
                (exifTranspose img).height
            rw [convertPalette_width, convertPalette_height]
            exact nat_mul_div_le _ _ _ (by omega)
        next hc =>
          constructor <;> simp

/-- Witness for C6: the spec's end-to-end scenario B, a 400×300 RGB source
with maxWidth 800 (already smaller, passed through unchanged). -/
theorem no_resize_when_small_and_never_upscales_witness :
    ((some (800 : Int) = none ∨
        ∃ w : Int, some (800 : Int) = some w ∧
          ((exifTranspose ⟨400, 300, "RGB", 1⟩).width : Int) ≤ w) →
      (Encoded.mk 400 300 "RGB" "JPEG" "image/jpeg" ".jpg" false).width
        = (exifTranspose ⟨400, 300, "RGB", 1⟩).width ∧
      (Encoded.mk 400 300 "RGB" "JPEG" "image/jpeg" ".jpg" false).height
        = (exifTranspose ⟨400, 300, "RGB", 1⟩).height) ∧
    (Encoded.mk 400 300 "RGB" "JPEG" "image/jpeg" ".jpg" false).width
      ≤ (exifTranspose ⟨400, 300, "RGB", 1⟩).width ∧
    (Encoded.mk 400 300 "RGB" "JPEG" "image/jpeg" ".jpg" false).height
      ≤ (exifTranspose ⟨400, 300, "RGB", 1⟩).height :=
  no_resize_when_small_and_never_upscales ⟨400, 300, "RGB", 1⟩ (some 800) 75
    "JPEG" true (Encoded.mk 400 300 "RGB" "JPEG" "image/jpeg" ".jpg" false) rfl

/-- **C1** (counterexample): the claim that the output height equals
`round(currentHeight * maxWidth / W)` fails on the code, which computes
`int(img.height * ratio)` and truncates. For a 4×3 source with maxWidth 2 the
code outputs height 1, whereas rounding 3 · 2 / 4 = 1.5 gives 2. -/
theorem resize_height_rounding_cex :
    compress_image (.ok ⟨4, 3, "RGB", 1⟩) (some 2) 75 "WEBP" true =
      .ok (Encoded.mk 2 1 "RGB" "WEBP" "image/webp" ".webp" false) ∧
    round ((3 : ℚ) * 2 / 4) = 2 ∧ (1 : ℤ) ≠ 2 := by
  refine ⟨rfl, ?_, by decide⟩
  norm_num [round_eq]

/-- **C1** (amended): for every decoded image whose orientation-normalized
width W exceeds maxWidth, the output width equals maxWidth and the output
height equals the truncation `floor(currentHeight * maxWidth / W)` (not the
rounding); the resulting height/width ratio still differs from the source
ratio by at most one pixel of rounding:
`height · W ≤ currentHeight · maxWidth < (height + 1) · W`. -/
theorem resize_sets_width_and_floors_height
    (img : Img) (w q : Int) (of : String) (st : Bool)
    (hq1 : 1 ≤ q) (hq2 : q ≤ 100) (hw : 1 ≤ w)
    (hlt : w < ((exifTranspose img).width : Int)) :
    ∃ e : Encoded, compress_image (.ok img) (some w) q of st = .ok e ∧
      e.width = w.toNat ∧
      e.height =
        (exifTranspose img).height * w.toNat / (exifTranspose img).width ∧
      e.height * (exifTranspose img).width ≤
        (exifTranspose img).height * w.toNat ∧
      (exifTranspose img).height * w.toNat <
        (e.height + 1) * (exifTranspose img).width := by
  have hcond : w ≠ 0 ∧ w < ((convertPalette (exifTranspose img)).width : Int) := by
    constructor
    · omega
    · rwa [convertPalette_width]
  have hres : resizeStage (some w) (convertPalette (exifTranspose img)) =
      { convertPalette (exifTranspose img) with
          width := w.toNat,
          height := (convertPalette (exifTranspose img)).height * w.toNat /
            (convertPalette (exifTranspose img)).width } := by
    rw [resizeStage_some, if_pos hcond]
  have hWpos : 0 < (exifTranspose img).width := by omega
  refine ⟨processDecoded img (some w) of, ?_, ?_, ?_, ?_, ?_⟩
  · unfold compress_image
    rw [if_neg (by omega), if_neg (by simp only [maxWidthInvalid, decide_eq_true_eq]; omega)]
  · rw [processDecoded_width, hres]
  · rw [processDecoded_height, hres]
    simp
  · rw [processDecoded_height, hres]
    show (convertPalette (exifTranspose img)).height * w.toNat /
        (convertPalette (exifTranspose img)).width *
        (exifTranspose img).width ≤ (exifTranspose img).height * w.toNat
    rw [convertPalette_width, convertPalette_height]
    exact Nat.div_mul_le_self _ _
  · rw [processDecoded_height, hres]
    show (exifTranspose img).height * w.toNat <
      ((convertPalette (exifTranspose img)).height * w.toNat /
          (convertPalette (exifTranspose img)).width + 1) *
        (exifTranspose img).width
    rw [convertPalette_width, convertPalette_height]
    have h1 := Nat.div_add_mod ((exifTranspose img).height * w.toNat)
      (exifTranspose img).width
    have h2 := Nat.mod_lt ((exifTranspose img).height * w.toNat) hWpos
    calc (exifTranspose img).height * w.toNat
        = (exifTranspose img).width *
            ((exifTranspose img).height * w.toNat / (exifTranspose img).width) +
          (exifTranspose img).height * w.toNat % (exifTranspose img).width :=
          h1.symm
      _ < (exifTranspose img).width *
            ((exifTranspose img).height * w.toNat / (exifTranspose img).width) +
          (exifTranspose img).width := Nat.add_lt_add_left h2 _
      _ = ((exifTranspose img).height * w.toNat / (exifTranspose img).width + 1) *
            (exifTranspose img).width := by ring

/-- Witness for the amended C1 at the concrete 4×3 source with maxWidth 2. -/
theorem resize_sets_width_and_floors_height_witness :
    ∃ e : Encoded,
      compress_image (.ok ⟨4, 3, "RGB", 1⟩) (some 2) 75 "WEBP" true = .ok e ∧
      e.width = (2 : Int).toNat ∧
      e.height = (exifTranspose ⟨4, 3, "RGB", 1⟩).height * (2 : Int).toNat /
        (exifTranspose ⟨4, 3, "RGB", 1⟩).width ∧
      e.height * (exifTranspose ⟨4, 3, "RGB", 1⟩).width ≤
        (exifTranspose ⟨4, 3, "RGB", 1⟩).height * (2 : Int).toNat ∧
      (exifTranspose ⟨4, 3, "RGB", 1⟩).height * (2 : Int).toNat <
        (e.height + 1) * (exifTranspose ⟨4, 3, "RGB", 1⟩).width :=
  resize_sets_width_and_floors_height ⟨4, 3, "RGB", 1⟩ 2 75 "WEBP" true
    (by decide) (by decide) (by decide) (by decide)

/-- The per-URL purge loop partitions the non-empty URLs by the outcome of
their individual POST, preserving order. -/
theorem purgeLoop_eq (post_ok : String → Bool) (l : List String) :
    purgeLoop post_ok l =
      (l.filter (fun u => !(u == "") && post_ok u),
       l.filter (fun u => !(u == "") && !post_ok u)) := by
  induction l with
  | nil => rfl
  | cons u rest ih =>
      unfold purgeLoop
      rw [ih]
      by_cases hu : u = ""
      · subst hu
        simp
      · by_cases hok : post_ok u = true
        · simp [List.filter_cons, hu, hok]
        · simp [List.filter_cons, hu, hok]

/-- **C9**: for every list of URLs (with the pull zone and API key
configured), `purge_cache` returns a per-URL result: the success list holds
exactly the non-empty URLs whose individual purge POST succeeded and the
failed list exactly those whose POST failed, so partial success is reported
per URL and never collapsed into an all-or-nothing outcome; a failed purge of
one URL only lands that URL in the failed list (the function is total — every
exception in the loop is caught, it never raises). -/
theorem purge_cache_reports_per_url
    (s : PurgeSettings) (post_ok : String → Bool) (urls : List String)
    (hz : s.pull_zone_id ≠ "") (hk : s.api_key ≠ "") :
    (purge_cache s post_ok urls).success =
      urls.filter (fun u => !(u == "") && post_ok u) ∧
    (purge_cache s post_ok urls).failed =
      urls.filter (fun u => !(u == "") && !post_ok u) ∧
    ∀ u ∈ urls, u ≠ "" →
      (u ∈ (purge_cache s post_ok urls).success ↔ post_ok u = true) ∧
      (u ∈ (purge_cache s post_ok urls).failed ↔ post_ok u = false) := by
  have hpc : purge_cache s post_ok urls =
      { success := urls.filter (fun u => !(u == "") && post_ok u),
        failed := urls.filter (fun u => !(u == "") && !post_ok u) } := by
    unfold purge_cache
    by_cases hnil : urls = []
    · subst hnil
      simp
    · rw [if_neg hnil, if_neg hz, if_neg hk, purgeLoop_eq]
  refine ⟨by rw [hpc], by rw [hpc], ?_⟩
  intro u hmem hu
  rw [hpc]
  constructor
  · simp [List.mem_filter, hmem, hu]
  · simp [List.mem_filter, hmem, hu]

/-- Witness for C9: one URL purges, the other fails; each is reported
individually. -/
theorem purge_cache_reports_per_url_witness :
    (purge_cache ⟨"12345", "apikey"⟩ (fun u => u == "a") ["a", "b"]).success =
      (["a", "b"].filter (fun u => !(u == "") && (u == "a"))) ∧
    (purge_cache ⟨"12345", "apikey"⟩ (fun u => u == "a") ["a", "b"]).failed =
      (["a", "b"].filter (fun u => !(u == "") && !(u == "a"))) ∧
    ∀ u ∈ ["a", "b"], u ≠ "" →
      (u ∈ (purge_cache ⟨"12345", "apikey"⟩ (fun u => u == "a")
          ["a", "b"]).success ↔ (u == "a") = true) ∧
      (u ∈ (purge_cache ⟨"12345", "apikey"⟩ (fun u => u == "a")
          ["a", "b"]).failed ↔ (u == "a") = false) :=
  purge_cache_reports_per_url ⟨"12345", "apikey"⟩ (fun u => u == "a")
    ["a", "b"] (by decide) (by decide)

end BunnyCDN
